import Mathlib

/-!
Shallow embedding of `src/script.py`: a command-line utility that reads a
text file, generates candidate questions with a text2text model, keeps the
ones an extractive QA model can answer, prints them, and writes them to an
output file.

External collaborators (the two model pipelines, CUDA availability, the
file reads) are parameters of the embedding; Python exceptions are the
`PyExc` type below, distinguishing the `ValueError` class (which `main`
catches around the generation step) from every other exception class.
The filesystem is a partial map from paths to file contents.
-/

/-- A Python exception, as far as the script can observe it:
`valueError` models any exception of class `ValueError`, `otherError`
models an exception of any other class. -/
inductive PyExc where
  | valueError (msg : String)
  | otherError (msg : String)
deriving DecidableEq, Repr

/-- Whether an exception is of class `ValueError` (what
`except ValueError` in `main` catches). -/
def PyExc.isValueError : PyExc → Bool
  | .valueError _ => true
  | .otherError _ => false

/-- The filesystem: a map from path to file content, `none` when the file
does not exist. -/
def FS : Type := String → Option String

/-- Embedding of `write_questions(questions, output_file)` (script.py line 25): opens
`output_file` in mode `"w"` (create or truncate to empty), then writes
`q + "\n"` for each question in order. -/
def write_questions (questions : List String) (output_file : String) (fs : FS) : FS :=
  let content := questions.foldl (fun acc q => acc ++ q ++ "\n") ""
  fun p => if p = output_file then some content else fs p

/-- Python's `str.isspace` characters as far as `str.strip()` with no
argument removes them (ASCII portion: space, tab, newline, carriage
return, vertical tab, form feed). -/
def pyIsSpace (c : Char) : Bool :=
  c = ' ' || c = '\t' || c = '\n' || c = '\r' || c = '\x0b' || c = '\x0c'

/-- Python's `s.strip()`: removes leading and trailing whitespace. -/
def strip (s : String) : String :=
  ⟨List.reverse (List.dropWhile pyIsSpace (List.reverse (List.dropWhile pyIsSpace s.data)))⟩

/-- The QA pipeline, as `filter_answerable_questions` uses it: given
question and context, either raises, or returns a mapping whose
`"answer"` entry is modelled by an `Option String` (`none` when the
mapping lacks the `"answer"` key, in which case `result.get("answer", "")`
falls back to `""`). -/
def QAModel : Type := String → String → Except PyExc (Option String)

/-- The loop body of `filter_answerable_questions` (script.py lines
99-106): for each question, try to run the QA pipeline; on any exception,
continue; otherwise keep the question when the answer string is non-empty
after stripping. `answerable` is the accumulator list being appended to. -/
def filterLoop (qa : QAModel) (context : String) : List String → List String → List String
  | answerable, [] => answerable
  | answerable, q :: rest =>
    match qa q context with
    | .error _ => filterLoop qa context answerable rest
    | .ok result =>
      let answer := strip (result.getD "")
      if answer = "" then filterLoop qa context answerable rest
      else filterLoop qa context (answerable ++ [q]) rest

/-- Embedding of `filter_answerable_questions(questions, context)` (script.py line 80):
runs the loop starting from the empty `answerable` list.  (The pipeline
construction on lines 91-96 only selects a device and loads the model;
the loaded model is the `qa` parameter here.) -/
def filter_answerable_questions (qa : QAModel) (questions : List String) (context : String) : List String :=
  filterLoop qa context [] questions

/-- The predicate the spec describes: the QA model, run on
(question, context), yields an answer string that is non-empty after
whitespace trimming. -/
def isAnswerable (qa : QAModel) (context : String) (q : String) : Bool :=
  match qa q context with
  | .error _ => false
  | .ok result => !(strip (result.getD "") == "")

/-- Observable steps of `generate_questions` after its argument guard:
the `torch.cuda.is_available()` probe, the `pipeline(...)` construction
(which loads the model, receiving the selected device and `num_beams`),
and the `qg_pipeline(...)` invocation (receiving `max_new_tokens` and
`num_return_sequences`). -/
inductive GenEvent where
  | deviceProbe
  | modelLoad (device : Int) (num_beams : Int)
  | modelInvoke (max_new_tokens : Int) (num_return_sequences : Int)
deriving DecidableEq, Repr

/-- The environment of `generate_questions`: CUDA availability, the
`pipeline(...)` construction (which may raise, e.g. on model download or
load failure), and the loaded pipeline's call on the prompt (which may
raise, or return the list of `generated_text` fields). -/
structure GenEnv where
  cuda_available : Bool
  load_qg : Int → Int → Except PyExc Unit
  run_qg : String → Int → Int → Except PyExc (List String)

/-- Embedding of `generate_questions(text, num_questions, max_tokens)` (script.py line
43): raises `ValueError` when `num_questions < 1 or max_tokens < 1`;
otherwise probes the device, sets `num_beams = max(num_questions, 4)`,
builds the pipeline and invokes it.  Returns the trace of observable
steps together with the result or the exception propagated. -/
def generate_questions (env : GenEnv) (text : String) (num_questions : Int) (max_tokens : Int) :
    List GenEvent × Except PyExc (List String) :=
  if num_questions < 1 ∨ max_tokens < 1 then
    ([], .error (.valueError "num_questions and max_tokens must be >= 1"))
  else
    let device : Int := if env.cuda_available then 0 else -1
    let num_beams : Int := max num_questions 4
    match env.load_qg device num_beams with
    | .error e => ([.deviceProbe, .modelLoad device num_beams], .error e)
    | .ok _ =>
      match env.run_qg ("generate questions: " ++ text) max_tokens num_questions with
      | .error e =>
        ([.deviceProbe, .modelLoad device num_beams,
          .modelInvoke max_tokens num_questions], .error e)
      | .ok qs =>
        ([.deviceProbe, .modelLoad device num_beams,
          .modelInvoke max_tokens num_questions], .ok qs)

/-- Parsed command-line arguments of `main` (script.py lines 111-139):
`--text_file`, `--output_file` (default `output.txt`), `--num_questions`
(default 3), `--max_tokens` (default 64). -/
structure Args where
  text_file : String
  output_file : String
  num_questions : Int
  max_tokens : Int

/-- The full environment of `main`: the file reader behind
`read_text_file` (which may raise `FileNotFoundError`,
`UnicodeDecodeError`, ...), the generation environment, and the loaded
QA pipeline used by `filter_answerable_questions`. -/
structure Env where
  read_file : String → Except PyExc String
  gen : GenEnv
  qa : QAModel

/-- How a run of `main` ends: `exitFailure` models `exit(1)` after a
printed diagnostic; `crash e` models an exception propagating out of
`main` uncaught; `ok printed` is a successful run with the list of
`Question <n>: <text>` lines printed to the console. -/
inductive MainOutcome where
  | exitFailure
  | crash (e : PyExc)
  | ok (printed : List String)
deriving DecidableEq, Repr

/-- Embedding of `read_text_file(file_path)` (script.py line 6): opens the file as
UTF-8 and reads it; IO and decode failures propagate as exceptions. -/
def read_text_file (env : Env) (file_path : String) : Except PyExc String :=
  env.read_file file_path

/-- The console lines printed by `main` on success (script.py lines
161-162): `Question <i>: <q>`, 1-indexed, in filter order. -/
def printedLines (answerable : List String) : List String :=
  (List.range answerable.length).zip answerable
    |>.map (fun p => "Question " ++ toString (p.1 + 1) ++ ": " ++ p.2)

namespace Script

/-- Embedding of `main()` after argument parsing (script.py lines 141-164): read the
text (any exception → diagnostic and `exit(1)`); reject empty or
whitespace-only text with `exit(1)`; generate questions (a `ValueError`
→ diagnostic and `exit(1)`; any other exception propagates uncaught);
filter them; print them; write them to the output file.  Returns the
outcome and the final filesystem. -/
def main (env : Env) (args : Args) (fs : FS) : MainOutcome × FS :=
  match read_text_file env args.text_file with
  | .error _ => (.exitFailure, fs)
  | .ok text =>
    if strip text = "" then (.exitFailure, fs)
    else
      match (generate_questions env.gen text args.num_questions args.max_tokens).2 with
      | .error (.valueError _) => (.exitFailure, fs)
      | .error e => (.crash e, fs)
      | .ok questions =>
        let answerable := filter_answerable_questions env.qa questions text
        (.ok (printedLines answerable), write_questions answerable args.output_file fs)

end Script

theorem filterLoop_acc (qa : QAModel) (context : String) (acc : List String) (qs : List String) :
    filterLoop qa context acc qs = acc ++ filterLoop qa context [] qs := by
  induction qs generalizing acc with
  | nil => simp [filterLoop]
  | cons q rest ih =>
    simp only [filterLoop]
    match h : qa q context with
    | .error e => exact ih acc
    | .ok result =>
      by_cases h2 : strip (result.getD "") = ""
      · simp only [if_pos h2]
        exact ih acc
      · simp only [if_neg h2, List.nil_append]
        rw [ih (acc ++ [q]), ih [q], List.append_assoc]

theorem filter_answerable_eq_filter (qa : QAModel) (context : String) (qs : List String) :
    filter_answerable_questions qa qs context = qs.filter (isAnswerable qa context) := by
  unfold filter_answerable_questions
  induction qs with
  | nil => rfl
  | cons q rest ih =>
    rw [List.filter_cons]
    simp only [filterLoop]
    match h : qa q context with
    | .error e =>
      have hp : isAnswerable qa context q = false := by simp [isAnswerable, h]
      simp only [hp, Bool.false_eq_true, if_false]
      exact ih
    | .ok result =>
      by_cases h2 : strip (result.getD "") = ""
      · have hp : isAnswerable qa context q = false := by
          simp [isAnswerable, h, h2]
        simp only [if_pos h2, hp, Bool.false_eq_true, if_false]
        exact ih
      · have hp : isAnswerable qa context q = true := by
          simp [isAnswerable, h]
          exact h2
        simp only [if_neg h2, hp, if_true, List.nil_append]
        rw [filterLoop_acc, ih, List.singleton_append]

/-- The file content described by the spec: each string followed by
exactly one newline, in order, nothing else. -/
def joinedLines : List String → String
  | [] => ""
  | q :: rest => q ++ "\n" ++ joinedLines rest

/-- Number of newline-terminated lines in a string (its newline count). -/
def countLines (s : String) : Nat :=
  (s.data.filter (fun c => c = '\n')).length

/-- An empty filesystem, for concrete runs. -/
def emptyFS : FS := fun _ => none

theorem writeFold_eq_joinedLines (qs : List String) (acc : String) :
    qs.foldl (fun a q => a ++ q ++ "\n") acc = acc ++ joinedLines qs := by
  induction qs generalizing acc with
  | nil => simp [joinedLines]
  | cons q rest ih =>
    simp only [List.foldl_cons, joinedLines, ih]
    simp [String.append_assoc]

theorem write_questions_apply (qs : List String) (path : String) (fs : FS) (p : String) :
    write_questions qs path fs p =
      if p = path then some (joinedLines qs) else fs p := by
  unfold write_questions
  have h := writeFold_eq_joinedLines qs ""
  simp only [h]
  rfl

/-- C2: for every list of candidate question strings and every context,
`filter_answerable_questions` returns the order-preserving subsequence of
exactly those input questions on which the QA model yields an answer
string that is non-empty after whitespace stripping. -/
theorem C2_filter_is_answerable_subsequence (qa : QAModel) (context : String) (qs : List String) :
    filter_answerable_questions qa qs context = qs.filter (isAnswerable qa context) ∧
    List.Sublist (filter_answerable_questions qa qs context) qs := by
  refine ⟨filter_answerable_eq_filter qa context qs, ?_⟩
  rw [filter_answerable_eq_filter]
  exact List.filter_sublist qs

/-- C4: the Answerability Filter never raises: a question on which the QA
model throws is silently dropped and processing continues with all the
other questions, before and after it. -/
theorem C4_filter_drops_throwing_question (qa : QAModel) (context q : String)
    (pre post : List String) (e : PyExc) (h : qa q context = .error e) :
    filter_answerable_questions qa (pre ++ q :: post) context =
      filter_answerable_questions qa (pre ++ post) context := by
  rw [filter_answerable_eq_filter, filter_answerable_eq_filter,
    List.filter_append, List.filter_append, List.filter_cons]
  have hp : isAnswerable qa context q = false := by simp [isAnswerable, h]
  simp [hp]

/-- A QA model that throws on the question `"bad"` and answers `"yes"`
otherwise, for concrete runs. -/
def qaThrowsOnBad : QAModel := fun q _ =>
  if q = "bad" then .error (.otherError "boom") else .ok (some "yes")

theorem C4_filter_drops_throwing_question_witness :
    qaThrowsOnBad "bad" "ctx" = .error (.otherError "boom") ∧
    filter_answerable_questions qaThrowsOnBad (["g1"] ++ "bad" :: ["g2"]) "ctx" =
      filter_answerable_questions qaThrowsOnBad (["g1"] ++ ["g2"]) "ctx" :=
  ⟨by rfl,
   C4_filter_drops_throwing_question qaThrowsOnBad "ctx" "bad" ["g1"] ["g2"]
     (.otherError "boom") (by rfl)⟩

/-- C9: a question on which the QA model returns a mapping with no
`"answer"` key is silently dropped (the `result.get("answer", "")`
fallback yields the empty string), with no error raised. -/
theorem C9_filter_drops_missing_answer_key (qa : QAModel) (context q : String)
    (pre post : List String) (h : qa q context = .ok none) :
    filter_answerable_questions qa (pre ++ q :: post) context =
      filter_answerable_questions qa (pre ++ post) context := by
  rw [filter_answerable_eq_filter, filter_answerable_eq_filter,
    List.filter_append, List.filter_append, List.filter_cons]
  have hp : isAnswerable qa context q = false := by simp [isAnswerable, h, strip]
  simp [hp]

/-- A QA model that returns a mapping without an `"answer"` key on the
question `"keyless"` and answers `"yes"` otherwise. -/
def qaNoKeyOnKeyless : QAModel := fun q _ =>
  if q = "keyless" then .ok none else .ok (some "yes")

theorem C9_filter_drops_missing_answer_key_witness :
    qaNoKeyOnKeyless "keyless" "ctx" = .ok none ∧
    filter_answerable_questions qaNoKeyOnKeyless (["g1"] ++ "keyless" :: ["g2"]) "ctx" =
      filter_answerable_questions qaNoKeyOnKeyless (["g1"] ++ ["g2"]) "ctx" :=
  ⟨by rfl,
   C9_filter_drops_missing_answer_key qaNoKeyOnKeyless "ctx" "keyless" ["g1"] ["g2"] (by rfl)⟩

/-- C5: the Writer overwrites the file at the output path with exactly
each string followed by one newline in order, leaves every other path
unchanged, and in particular writing `["a", "b"]` then `["c"]` to the
same path leaves the file containing only `"c\n"`. -/
theorem C5_writer_overwrites (qs : List String) (path p : String) (fs : FS) :
    write_questions qs path fs path = some (joinedLines qs) ∧
    (p ≠ path → write_questions qs path fs p = fs p) ∧
    write_questions ["c"] path (write_questions ["a", "b"] path fs) path = some "c\n" := by
  refine ⟨?_, ?_, ?_⟩
  · rw [write_questions_apply]
    simp
  · intro hp
    rw [write_questions_apply]
    simp [hp]
  · rw [write_questions_apply]
    simp [joinedLines]

theorem C5_writer_overwrites_witness :
    write_questions ["a"] "out.txt" emptyFS "out.txt" = some (joinedLines ["a"]) ∧
    ("other.txt" ≠ "out.txt") ∧
    write_questions ["a"] "out.txt" emptyFS "other.txt" = emptyFS "other.txt" ∧
    write_questions ["c"] "out.txt" (write_questions ["a", "b"] "out.txt" emptyFS) "out.txt" =
      some "c\n" :=
  ⟨(C5_writer_overwrites ["a"] "out.txt" "other.txt" emptyFS).1,
   by decide,
   (C5_writer_overwrites ["a"] "out.txt" "other.txt" emptyFS).2.1 (by decide),
   (C5_writer_overwrites ["c"] "out.txt" "other.txt" emptyFS).2.2⟩

/-- C10: the Writer writes each string verbatim, so a single question
containing an embedded newline produces an output file with two lines —
more lines than questions. -/
theorem C10_writer_verbatim_embedded_newline :
    write_questions ["What is it?\nExtra"] "out.txt" emptyFS "out.txt" =
      some "What is it?\nExtra\n" ∧
    (["What is it?\nExtra"] : List String).length < countLines "What is it?\nExtra\n" := by
  constructor
  · rw [write_questions_apply]
    simp [joinedLines]
  · decide

/-- C3: `generate_questions` raises its `ValueError` guard, with an empty
observable trace (no device probe, no model load, no model invocation),
exactly when `num_questions < 1` or `max_tokens < 1`; and in that case it
returns the guard's exact error before doing anything else. -/
theorem C3_generator_invalid_argument_guard (env : GenEnv) (text : String) (nq mt : Int) :
    (((generate_questions env text nq mt).1 = [] ∧
       ∃ m, (generate_questions env text nq mt).2 = .error (.valueError m)) ↔
      (nq < 1 ∨ mt < 1)) ∧
    ((nq < 1 ∨ mt < 1) →
      generate_questions env text nq mt =
        ([], .error (.valueError "num_questions and max_tokens must be >= 1"))) := by
  by_cases h : nq < 1 ∨ mt < 1
  · refine ⟨?_, fun _ => ?_⟩
    · simp [generate_questions, h]
    · simp [generate_questions, h]
  · refine ⟨?_, fun hc => absurd hc h⟩
    simp only [generate_questions, if_neg h]
    rcases hl : env.load_qg (if env.cuda_available then 0 else -1) (max nq 4) with e | u
    · simp [hl, h]
    · rcases hr : env.run_qg ("generate questions: " ++ text) mt nq with e | qs
      · simp [hl, hr, h]
      · simp [hl, hr, h]

/-- A generation environment whose pipeline loads and runs successfully,
returning one question. -/
def genEnvOk : GenEnv :=
  { cuda_available := false
    load_qg := fun _ _ => .ok ()
    run_qg := fun _ _ _ => .ok ["Q1?"] }

theorem C3_generator_invalid_argument_guard_witness :
    ((0 : Int) < 1 ∨ (64 : Int) < 1) ∧
    generate_questions genEnvOk "x" 0 64 =
      ([], .error (.valueError "num_questions and max_tokens must be >= 1")) :=
  ⟨by decide, (C3_generator_invalid_argument_guard genEnvOk "x" 0 64).2 (by decide)⟩

/-- C8: for `num_questions ≥ 1`, the beam count handed to the model load
is `max(num_questions, 4)`, hence at least `num_questions` and at
least 4. -/
theorem C8_beam_count (env : GenEnv) (text : String) (nq mt : Int) (h : 1 ≤ nq)
    (d b : Int) (hmem : GenEvent.modelLoad d b ∈ (generate_questions env text nq mt).1) :
    b = max nq 4 ∧ nq ≤ b ∧ 4 ≤ b := by
  have hb : b = max nq 4 := by
    by_cases hg : nq < 1 ∨ mt < 1
    · simp [generate_questions, hg] at hmem
    · simp only [generate_questions, if_neg hg] at hmem
      rcases hl : env.load_qg (if env.cuda_available then 0 else -1) (max nq 4) with e | u
      · rw [hl] at hmem
        simp at hmem
        exact hmem.2
      · rcases hr : env.run_qg ("generate questions: " ++ text) mt nq with e | qs <;>
          rw [hl, hr] at hmem <;> simp at hmem <;> exact hmem.2
  subst hb
  exact ⟨rfl, le_max_left nq 4, le_max_right nq 4⟩

theorem C8_beam_count_witness :
    (1 : Int) ≤ 1 ∧
    GenEvent.modelLoad (-1) 4 ∈ (generate_questions genEnvOk "x" 1 64).1 ∧
    ((4 : Int) = max 1 4 ∧ (1 : Int) ≤ 4 ∧ (4 : Int) ≤ 4) :=
  ⟨by decide, by decide, C8_beam_count genEnvOk "x" 1 64 (by decide) (-1) 4 (by decide)⟩

/-- A QA model that answers every question with `"a"`. -/
def qaYes : QAModel := fun _ _ => .ok (some "a")

/-- Default concrete arguments for end-to-end runs. -/
def argsD : Args :=
  { text_file := "in.txt", output_file := "out.txt", num_questions := 1, max_tokens := 64 }

/-- An environment for a fully successful end-to-end run. -/
def envOk : Env := { read_file := fun _ => .ok "x", gen := genEnvOk, qa := qaYes }

/-- An environment whose input file reads as the empty string. -/
def envBlank : Env := { read_file := fun _ => .ok "", gen := genEnvOk, qa := qaYes }

/-- A generation environment whose pipeline invocation raises a
`ValueError` that is not the argument guard's. -/
def genEnvVE : GenEnv :=
  { cuda_available := false
    load_qg := fun _ _ => .ok ()
    run_qg := fun _ _ _ => .error (.valueError "boom") }

/-- An environment around `genEnvVE`. -/
def envVE : Env := { read_file := fun _ => .ok "x", gen := genEnvVE, qa := qaYes }

/-- A generation environment whose model load raises a non-`ValueError`
exception. -/
def genEnvCrash : GenEnv :=
  { cuda_available := false
    load_qg := fun _ _ => .error (.otherError "OSError: no network")
    run_qg := fun _ _ _ => .ok ["Q1?"] }

/-- An environment around `genEnvCrash`. -/
def envCrash : Env := { read_file := fun _ => .ok "x", gen := genEnvCrash, qa := qaYes }

/-- C6: when the loaded text strips to the empty string, `main` exits
with a failure status and the filesystem is untouched: the write stage is
never reached. -/
theorem C6_blank_input_exits_without_write (env : Env) (args : Args) (fs : FS) (text : String)
    (hread : read_text_file env args.text_file = .ok text) (hblank : strip text = "") :
    Script.main env args fs = (.exitFailure, fs) := by
  unfold Script.main
  rw [hread]
  simp only [if_pos hblank]

theorem C6_blank_input_exits_without_write_witness :
    read_text_file envBlank argsD.text_file = .ok "" ∧ strip "" = "" ∧
    Script.main envBlank argsD emptyFS = (.exitFailure, emptyFS) :=
  ⟨rfl, rfl, C6_blank_input_exits_without_write envBlank argsD emptyFS "" rfl rfl⟩

/-- C7 counterexample: with valid arguments (`num_questions = 1`,
`max_tokens = 64`), a generation-step failure that is not the
invalid-argument guard — the pipeline invocation raising a `ValueError`
after the model was probed and loaded — is still caught by `main`'s
`except ValueError`, producing a clean non-zero exit instead of
propagating and crashing the process. -/
theorem C7_counterexample_pipeline_valueerror_caught :
    (generate_questions genEnvVE "x" 1 64).1 ≠ [] ∧
    ¬((1 : Int) < 1 ∨ (64 : Int) < 1) ∧
    (generate_questions genEnvVE "x" 1 64).2 = .error (.valueError "boom") ∧
    Script.main envVE argsD emptyFS = (.exitFailure, emptyFS) :=
  ⟨by decide, by decide, rfl, rfl⟩

/-- C7 amended: when the generation step raises, `main` catches the
exception and exits with a failure status exactly when the exception is
of class `ValueError` (which includes the invalid-argument guard); an
exception of any other class propagates uncaught and crashes the
process. -/
theorem C7_generation_failure_handling (env : Env) (args : Args) (fs : FS) (text : String)
    (e : PyExc) (hread : read_text_file env args.text_file = .ok text)
    (hne : strip text ≠ "")
    (hgen : (generate_questions env.gen text args.num_questions args.max_tokens).2 = .error e) :
    (e.isValueError = true → Script.main env args fs = (.exitFailure, fs)) ∧
    (e.isValueError = false → Script.main env args fs = (.crash e, fs)) := by
  cases e with
  | valueError m =>
    refine ⟨fun _ => ?_, fun hf => by simp [PyExc.isValueError] at hf⟩
    unfold Script.main
    rw [hread]
    simp only [if_neg hne, hgen]
  | otherError m =>
    refine ⟨fun ht => by simp [PyExc.isValueError] at ht, fun _ => ?_⟩
    unfold Script.main
    rw [hread]
    simp only [if_neg hne, hgen]

theorem C7_generation_failure_handling_witness :
    Script.main envVE argsD emptyFS = (.exitFailure, emptyFS) ∧
    Script.main envCrash argsD emptyFS = (.crash (.otherError "OSError: no network"), emptyFS) :=
  ⟨(C7_generation_failure_handling envVE argsD emptyFS "x" (.valueError "boom") rfl
      (by decide) rfl).1 rfl,
   (C7_generation_failure_handling envCrash argsD emptyFS "x" (.otherError "OSError: no network")
      rfl (by decide) rfl).2 rfl⟩

/-- C1: whenever `main` completes successfully, the output file contains
exactly the questions that passed the answerability filter, in generation
order (an order-preserving subsequence of the generated questions), each
followed by exactly one newline and nothing else. -/
theorem C1_output_contains_filtered_questions (env : Env) (args : Args) (fs fs2 : FS)
    (printed : List String) (h : Script.main env args fs = (.ok printed, fs2)) :
    ∃ text questions,
      read_text_file env args.text_file = .ok text ∧
      (generate_questions env.gen text args.num_questions args.max_tokens).2 = .ok questions ∧
      fs2 args.output_file =
        some (joinedLines (filter_answerable_questions env.qa questions text)) ∧
      List.Sublist (filter_answerable_questions env.qa questions text) questions := by
  unfold Script.main at h
  rcases hr : read_text_file env args.text_file with e | text
  · rw [hr] at h
    simp at h
  · rw [hr] at h
    by_cases hb : strip text = ""
    · simp only [if_pos hb] at h
      simp at h
    · simp only [if_neg hb] at h
      rcases hg : (generate_questions env.gen text args.num_questions args.max_tokens).2
        with e | questions
      · rw [hg] at h
        cases e <;> simp at h
      · rw [hg] at h
        rw [Prod.mk.injEq] at h
        refine ⟨text, questions, rfl, hg, ?_, ?_⟩
        · rw [← h.2, write_questions_apply]
          simp
        · rw [filter_answerable_eq_filter]
          exact List.filter_sublist questions

theorem C1_output_contains_filtered_questions_witness :
    Script.main envOk argsD emptyFS =
      (.ok ["Question 1: Q1?"], write_questions ["Q1?"] "out.txt" emptyFS) ∧
    (∃ text questions,
      read_text_file envOk argsD.text_file = .ok text ∧
      (generate_questions envOk.gen text argsD.num_questions argsD.max_tokens).2 =
        .ok questions ∧
      write_questions ["Q1?"] "out.txt" emptyFS argsD.output_file =
        some (joinedLines (filter_answerable_questions envOk.qa questions text)) ∧
      List.Sublist (filter_answerable_questions envOk.qa questions text) questions) :=
  ⟨rfl,
   C1_output_contains_filtered_questions envOk argsD emptyFS
     (write_questions ["Q1?"] "out.txt" emptyFS) ["Question 1: Q1?"] rfl⟩
